import Mathlib

/-!
Verification development for the AirBnB clone v3 REST API layer
(src/api/v1).  The Flask view functions are embedded shallowly: each
view becomes a Lean function from an explicit store and the parsed
request body to a response together with the updated store.  The
storage backend and the model constructors live outside src/, so they
are modelled from the specification (sections 3 and 6): the store is a
per-type association list keyed by object id, get is lookup, count is
length, new followed by save appends, delete followed by save removes
the object.
-/

set_option maxRecDepth 4000
set_option linter.unusedTactic false

/-- Embedded JSON values, the payloads carried by request bodies and
object attributes. -/
inductive JVal where
  | jnull
  | jbool (b : Bool)
  | jint (n : Int)
  | jstr (s : String)
  | jarr (elems : List JVal)
  | jobj (fields : List (String × JVal))

/-- Python truthiness of a JSON value, as tested by `if not v`:
null, false, 0, the empty string, the empty list and the empty object
are falsy, everything else is truthy. -/
def JVal.truthy : JVal → Bool
  | .jnull => false
  | .jbool b => b
  | .jint n => n != 0
  | .jstr s => s ≠ ""
  | .jarr elems => !elems.isEmpty
  | .jobj fields => !fields.isEmpty

/-- Attribute map of an object, and the shape of a parsed JSON object
body: an association list from string keys to JSON values. -/
abbrev AttrMap := List (String × JVal)

/-- Association-list lookup by key (first binding wins, as in a
Python dict, whose keys are unique). -/
def alookup (l : List (String × α)) (k : String) : Option α :=
  match l with
  | [] => none
  | (k2, v) :: t => if k2 = k then some v else alookup t k

/-- Keys of an association list. -/
def akeys (l : List (String × α)) : List String :=
  l.map Prod.fst

/-- Replace the value bound to a key, leaving other entries alone;
models mutating the object held by the storage under that id. -/
def aset (l : List (String × α)) (k : String) (v : α) : List (String × α) :=
  l.map (fun kv => if kv.1 = k then (k, v) else kv)

/-- Remove the first entry with the given key; models
`storage.delete(obj)` removing the one object stored under that id. -/
def aerase (l : List (String × α)) (k : String) : List (String × α) :=
  match l with
  | [] => []
  | (k2, v) :: t => if k2 = k then t else (k2, v) :: aerase t k

/-- Python `d.get(k, None)`: the bound value, or null when absent. -/
def dictGet (d : AttrMap) (k : String) : JVal :=
  (alookup d k).getD .jnull

/-- Python attribute assignment `setattr(obj, k, v)` on an object whose
attributes are an attribute map: bind k to v, dropping any old binding. -/
def setAttr (obj : AttrMap) (k : String) (v : JVal) : AttrMap :=
  (k, v) :: obj.filter (fun kv => kv.1 ≠ k)

/-- Number of occurrences of an id in an id list. -/
def lcount (l : List String) (x : String) : Nat :=
  match l with
  | [] => 0
  | y :: t => (if y = x then 1 else 0) + lcount t x

/-- Python `list.remove(x)`: drop the first occurrence of x. -/
def lerase (l : List String) (x : String) : List String :=
  match l with
  | [] => []
  | y :: t => if y = x then t else y :: lerase t x

/-- A stored Place: its free-form attributes plus the two physical
representations of the amenity association, the relational collection
(db storage, `place.amenities`) and the embedded id list (file
storage, `place.amenity_ids`), each kept as a list of amenity ids. -/
structure PlaceObj where
  attrs : AttrMap
  amenities : List String
  amenity_ids : List String

/-- Modelled from the spec: the storage backend (package models, not
under src/) keeps, for each resource type, a mapping of id to object;
`get` is lookup, `count` is the size of the mapping, `new` plus `save`
appends, `delete` plus `save` removes the object (spec section 6). -/
structure Store where
  states : List (String × AttrMap)
  cities : List (String × AttrMap)
  users : List (String × AttrMap)
  places : List (String × PlaceObj)
  reviews : List (String × AttrMap)
  amenities : List (String × AttrMap)

/-- Modelled from the spec: `storage.count(type)` returns the number
of objects of that type currently in the backend (spec section 6). -/
def Store.count (s : Store) : String → Nat
  | "State" => s.states.length
  | "City" => s.cities.length
  | "User" => s.users.length
  | "Place" => s.places.length
  | "Review" => s.reviews.length
  | "Amenity" => s.amenities.length
  | _ => 0

/-- Response bodies: an error object, a serialized object, or an array
of serialized objects.  `jsonify({})` is `.obj []`. -/
inductive Body where
  | err (msg : String)
  | obj (attrs : AttrMap)
  | arr (objs : List AttrMap)

/-- A view function outcome: either `abort(404)`, handed to the
application 404 handler, or an explicit JSON response with a status. -/
inductive Resp where
  | abort404
  | json (status : Nat) (body : Body)

/-- The application-wide 404 handler from src/api/v1/app.py
(`page_not_found`): status 404 with body `{"error": "Not found"}`. -/
def page_not_found : Nat × Body :=
  (404, .err "Not found")

/-- Final wire-level rendering: an abort flows through the single
registered 404 handler; explicit responses pass through unchanged. -/
def render : Resp → Nat × Body
  | .abort404 => page_not_found
  | .json status body => (status, body)

/-- Python `if not data_dict` on the result of
`request.get_json(silent=True)`: true when the body was absent or
unparseable (None) and also when it parsed to an empty object. -/
def bodyFalsy : Option AttrMap → Bool
  | none => true
  | some d => d.isEmpty

/-- Modelled from the spec: the model constructor (models.base_model,
not under src/) carries the payload attributes forward and assigns a
fresh id and the creation timestamps (spec section 3). -/
def mkObject (payload : AttrMap) (fresh_id now : String) : AttrMap :=
  setAttr (setAttr (setAttr payload "id" (.jstr fresh_id)) "created_at" (.jstr now)) "updated_at" (.jstr now)

/-- Modelled from the spec: `obj.save()` refreshes `updated_at` and
persists the object (spec section 3). -/
def objSave (obj : AttrMap) (now : String) : AttrMap :=
  setAttr obj "updated_at" (.jstr now)

/-- Protected keys of update_state (src/api/v1/views/states.py). -/
def stateIgnoredKeys : List String :=
  ["id", "created_at", "updated_at", "__class__"]

/-- Protected keys of update_city (src/api/v1/views/cities.py). -/
def cityIgnoredKeys : List String :=
  ["id", "created_at", "updated_at", "__class__", "state_id"]

/-- Protected keys of update_amenity (src/api/v1/views/amenities.py). -/
def amenityIgnoredKeys : List String :=
  ["id", "created_at", "updated_at", "__class__"]

/-- Protected keys of update_user (src/api/v1/views/users.py). -/
def userIgnoredKeys : List String :=
  ["id", "created_at", "updated_at", "__class__", "email"]

/-- Protected keys of update_place (src/api/v1/views/places.py). -/
def placeIgnoredKeys : List String :=
  ["id", "created_at", "updated_at", "__class__", "user_id", "city_id"]

/-- Protected keys of update_review (src/api/v1/views/places_reviews.py). -/
def reviewIgnoredKeys : List String :=
  ["id", "created_at", "updated_at", "__class__", "place_id", "user_id"]

/-- The shared update loop: for each payload binding whose key is not
in the ignored list, assign the attribute on the object. -/
def applyUpdates (ignored : List String) (obj : AttrMap) (payload : AttrMap) : AttrMap :=
  payload.foldl (fun acc kv => if kv.1 ∈ ignored then acc else setAttr acc kv.1 kv.2) obj

/-- GET /states (src/api/v1/views/states.py, list_all_states). -/
def list_all_states (s : Store) : Resp :=
  .json 200 (.arr (s.states.map Prod.snd))

/-- GET /states/id (src/api/v1/views/states.py, get_a_state). -/
def get_a_state (s : Store) (state_id : String) : Resp × Store :=
  match alookup s.states state_id with
  | some st => (.json 200 (.obj st), s)
  | none => (.abort404, s)

/-- DELETE /states/id (src/api/v1/views/states.py, delete_a_state). -/
def delete_a_state (s : Store) (state_id : String) : Resp × Store :=
  match alookup s.states state_id with
  | some _ => (.json 200 (.obj []), { s with states := aerase s.states state_id })
  | none => (.abort404, s)

/-- POST /states (src/api/v1/views/states.py, create_state). -/
def create_state (s : Store) (body : Option AttrMap) (fresh_id now : String) : Resp × Store :=
  if bodyFalsy body then (.json 400 (.err "Not a JSON"), s)
  else
    let d := body.getD []
    if !(dictGet d "name").truthy then (.json 400 (.err "Missing name"), s)
    else
      let new_state := mkObject d fresh_id now
      (.json 201 (.obj new_state), { s with states := s.states ++ [(fresh_id, new_state)] })

/-- PUT /states/id (src/api/v1/views/states.py, update_state). -/
def update_state (s : Store) (state_id : String) (body : Option AttrMap) (now : String) : Resp × Store :=
  match alookup s.states state_id with
  | none => (.abort404, s)
  | some st =>
    if bodyFalsy body then (.json 400 (.err "Not a JSON"), s)
    else
      let st2 := objSave (applyUpdates stateIgnoredKeys st (body.getD [])) now
      (.json 200 (.obj st2), { s with states := aset s.states state_id st2 })

/-- POST /users (src/api/v1/views/users.py, create_user). -/
def create_user (s : Store) (body : Option AttrMap) (fresh_id now : String) : Resp × Store :=
  if bodyFalsy body then (.json 400 (.err "Not a JSON"), s)
  else
    let d := body.getD []
    if !(dictGet d "email").truthy then (.json 400 (.err "Missing email"), s)
    else if !(dictGet d "password").truthy then (.json 400 (.err "Missing password"), s)
    else
      let new_user := mkObject d fresh_id now
      (.json 201 (.obj new_user), { s with users := s.users ++ [(fresh_id, new_user)] })

/-- PUT /users/id (src/api/v1/views/users.py, update_user). -/
def update_user (s : Store) (user_id : String) (body : Option AttrMap) (now : String) : Resp × Store :=
  match alookup s.users user_id with
  | none => (.abort404, s)
  | some user =>
    if bodyFalsy body then (.json 400 (.err "Not a JSON"), s)
    else
      let user2 := objSave (applyUpdates userIgnoredKeys user (body.getD [])) now
      (.json 200 (.obj user2), { s with users := aset s.users user_id user2 })

/-- POST /amenities (src/api/v1/views/amenities.py, create_amenity). -/
def create_amenity (s : Store) (body : Option AttrMap) (fresh_id now : String) : Resp × Store :=
  if bodyFalsy body then (.json 400 (.err "Not a JSON"), s)
  else
    let d := body.getD []
    if !(dictGet d "name").truthy then (.json 400 (.err "Missing name"), s)
    else
      let new_amenity := mkObject d fresh_id now
      (.json 201 (.obj new_amenity), { s with amenities := s.amenities ++ [(fresh_id, new_amenity)] })

/-- POST /states/id/cities (src/api/v1/views/cities.py, create_city). -/
def create_city (s : Store) (state_id : String) (body : Option AttrMap) (fresh_id now : String) : Resp × Store :=
  match alookup s.states state_id with
  | none => (.abort404, s)
  | some _ =>
    if bodyFalsy body then (.json 400 (.err "Not a JSON"), s)
    else
      let d := body.getD []
      if !(dictGet d "name").truthy then (.json 400 (.err "Missing name"), s)
      else
        let new_city := mkObject (setAttr d "state_id" (.jstr state_id)) fresh_id now
        (.json 201 (.obj new_city), { s with cities := s.cities ++ [(fresh_id, new_city)] })

/-- Storage lookup of the User referenced by the payload value of
user_id; `storage.get(User, v)` finds an object only when v is the id
string of a stored User. -/
def getUserByJVal (s : Store) (v : JVal) : Option AttrMap :=
  match v with
  | .jstr k => alookup s.users k
  | _ => none

/-- POST /cities/id/places (src/api/v1/views/places.py, create_place). -/
def create_place (s : Store) (city_id : String) (body : Option AttrMap) (fresh_id now : String) : Resp × Store :=
  match alookup s.cities city_id with
  | none => (.abort404, s)
  | some _ =>
    if bodyFalsy body then (.json 400 (.err "Not a JSON"), s)
    else
      let d := body.getD []
      if !(dictGet d "user_id").truthy then (.json 400 (.err "Missing user_id"), s)
      else
        match getUserByJVal s (dictGet d "user_id") with
        | none => (.abort404, s)
        | some _ =>
          if !(dictGet d "name").truthy then (.json 400 (.err "Missing name"), s)
          else
            let new_place := mkObject (setAttr d "city_id" (.jstr city_id)) fresh_id now
            (.json 201 (.obj new_place),
              { s with places := s.places ++ [(fresh_id, ⟨new_place, [], []⟩)] })

/-- PUT /places/id (src/api/v1/views/places.py, update_place). -/
def update_place (s : Store) (place_id : String) (body : Option AttrMap) (now : String) : Resp × Store :=
  match alookup s.places place_id with
  | none => (.abort404, s)
  | some place =>
    if bodyFalsy body then (.json 400 (.err "Not a JSON"), s)
    else
      let attrs2 := objSave (applyUpdates placeIgnoredKeys place.attrs (body.getD [])) now
      (.json 200 (.obj attrs2),
        { s with places := aset s.places place_id { place with attrs := attrs2 } })

/-- POST /places/id/reviews (src/api/v1/views/places_reviews.py, create_review). -/
def create_review (s : Store) (place_id : String) (body : Option AttrMap) (fresh_id now : String) : Resp × Store :=
  match alookup s.places place_id with
  | none => (.abort404, s)
  | some _ =>
    if bodyFalsy body then (.json 400 (.err "Not a JSON"), s)
    else
      let d := body.getD []
      if !(dictGet d "user_id").truthy then (.json 400 (.err "Missing user_id"), s)
      else
        match getUserByJVal s (dictGet d "user_id") with
        | none => (.abort404, s)
        | some _ =>
          if !(dictGet d "text").truthy then (.json 400 (.err "Missing text"), s)
          else
            let new_review := mkObject (setAttr d "place_id" (.jstr place_id)) fresh_id now
            (.json 201 (.obj new_review), { s with reviews := s.reviews ++ [(fresh_id, new_review)] })

/-- The storage mode selected by the HBNB_TYPE_STORAGE environment
variable: db (relational) or file (embedded id list). -/
inductive Mode where
  | db
  | file

/-- The physical association list of a place under the given mode:
the relational collection for db storage, the embedded id list for
file storage. -/
def assocIds (mode : Mode) (p : PlaceObj) : List String :=
  match mode with
  | .db => p.amenities
  | .file => p.amenity_ids

/-- POST /places/id/amenities/id
(src/api/v1/views/places_amenities.py, link_place_amenity). -/
def link_place_amenity (mode : Mode) (s : Store) (place_id amenity_id : String) : Resp × Store :=
  match alookup s.places place_id, alookup s.amenities amenity_id with
  | some place, some amenity =>
    (match mode with
     | .db =>
       if amenity_id ∈ place.amenities then (.json 200 (.obj amenity), s)
       else
         (.json 201 (.obj amenity),
           { s with places := aset s.places place_id { place with amenities := place.amenities ++ [amenity_id] } })
     | .file =>
       if amenity_id ∈ place.amenity_ids then (.json 200 (.obj amenity), s)
       else
         (.json 201 (.obj amenity),
           { s with places := aset s.places place_id { place with amenity_ids := place.amenity_ids ++ [amenity_id] } }))
  | _, _ => (.abort404, s)

/-- DELETE /places/id/amenities/id
(src/api/v1/views/places_amenities.py, delete_place_amenity). -/
def delete_place_amenity (mode : Mode) (s : Store) (place_id amenity_id : String) : Resp × Store :=
  match alookup s.places place_id, alookup s.amenities amenity_id with
  | some place, some _ =>
    (match mode with
     | .db =>
       if amenity_id ∈ place.amenities then
         (.json 200 (.obj []),
           { s with places := aset s.places place_id { place with amenities := lerase place.amenities amenity_id } })
       else (.abort404, s)
     | .file =>
       if amenity_id ∈ place.amenity_ids then
         (.json 200 (.obj []),
           { s with places := aset s.places place_id { place with amenity_ids := lerase place.amenity_ids amenity_id } })
       else (.abort404, s))
  | _, _ => (.abort404, s)

/-- GET /stats (src/api/v1/views/index.py, count): the six per-type
counts, in the order written in the source. -/
def count (s : Store) : Resp :=
  .json 200 (.obj [
    ("amenities", .jint (s.count "Amenity")),
    ("cities", .jint (s.count "City")),
    ("places", .jint (s.count "Place")),
    ("reviews", .jint (s.count "Review")),
    ("states", .jint (s.count "State")),
    ("users", .jint (s.count "User"))])

/-- Filtering out one key leaves lookups of other keys unchanged. -/
theorem alookup_filter_ne (l : List (String × α)) (k k2 : String) (h : k2 ≠ k) :
    alookup (l.filter (fun kv => kv.1 ≠ k)) k2 = alookup l k2 := by
  have hkk2 : ¬(k = k2) := fun he => h he.symm
  induction l with
  | nil => rfl
  | cons hd t ih =>
    simp only [List.filter_cons]
    by_cases h1 : hd.1 = k
    · have hp : decide (hd.1 ≠ k) = false := by simp [h1]
      rw [hp]
      have h2 : ¬(hd.1 = k2) := by rw [h1]; exact hkk2
      simp only [Bool.false_eq_true, if_false]
      rw [ih]
      simp [alookup, h2]
    · have hp : decide (hd.1 ≠ k) = true := by simp [h1]
      rw [hp]
      simp only [if_true]
      simp only [alookup]
      by_cases h3 : hd.1 = k2
      · rw [if_pos h3, if_pos h3]
      · rw [if_neg h3, if_neg h3, ih]

/-- Assigning an attribute makes it readable back. -/
theorem alookup_setAttr_self (obj : AttrMap) (k : String) (v : JVal) :
    alookup (setAttr obj k v) k = some v := by
  simp [setAttr, alookup]

/-- Assigning one attribute leaves the others unchanged. -/
theorem alookup_setAttr_ne (obj : AttrMap) (k k2 : String) (v : JVal) (h : k2 ≠ k) :
    alookup (setAttr obj k v) k2 = alookup obj k2 := by
  simp only [setAttr, alookup]
  rw [if_neg (fun he => h he.symm)]
  exact alookup_filter_ne obj k k2 h

/-- The constructor only overrides id and the two timestamps; every
other payload attribute is carried forward unchanged. -/
theorem alookup_mkObject_other (payload : AttrMap) (fresh_id now k : String)
    (h1 : k ≠ "id") (h2 : k ≠ "created_at") (h3 : k ≠ "updated_at") :
    alookup (mkObject payload fresh_id now) k = alookup payload k := by
  unfold mkObject
  rw [alookup_setAttr_ne _ _ _ _ h3, alookup_setAttr_ne _ _ _ _ h2,
    alookup_setAttr_ne _ _ _ _ h1]

/-- Unfolding one step of the update loop. -/
theorem applyUpdates_cons (ignored : List String) (obj : AttrMap) (hd : String × JVal)
    (t : AttrMap) :
    applyUpdates ignored obj (hd :: t)
      = applyUpdates ignored (if hd.1 ∈ ignored then obj else setAttr obj hd.1 hd.2) t := by
  simp only [applyUpdates, List.foldl_cons]

/-- The update loop never assigns a key from the ignored list. -/
theorem applyUpdates_ignored (ignored : List String) (d : AttrMap) (k : String)
    (hk : k ∈ ignored) :
    ∀ obj : AttrMap, alookup (applyUpdates ignored obj d) k = alookup obj k := by
  induction d with
  | nil => intro obj; rfl
  | cons hd t ih =>
    intro obj
    rw [applyUpdates_cons]
    by_cases hmem : hd.1 ∈ ignored
    · rw [if_pos hmem]; exact ih obj
    · rw [if_neg hmem]
      have hne : k ≠ hd.1 := fun he => hmem (he ▸ hk)
      rw [ih (setAttr obj hd.1 hd.2)]
      exact alookup_setAttr_ne obj hd.1 k hd.2 hne

/-- The update loop leaves attributes alone whose key the payload does
not mention. -/
theorem applyUpdates_not_mentioned (ignored : List String) (d : AttrMap) (k : String)
    (hk : k ∉ akeys d) :
    ∀ obj : AttrMap, alookup (applyUpdates ignored obj d) k = alookup obj k := by
  induction d with
  | nil => intro obj; rfl
  | cons hd t ih =>
    intro obj
    have hk1 : k ≠ hd.1 := fun he => hk (by simp [akeys, he])
    have hk2 : k ∉ akeys t := fun hm => hk (by simp [akeys] at hm ⊢; exact Or.inr hm)
    rw [applyUpdates_cons]
    by_cases hmem : hd.1 ∈ ignored
    · rw [if_pos hmem]; exact ih hk2 obj
    · rw [if_neg hmem]
      rw [ih hk2 (setAttr obj hd.1 hd.2)]
      exact alookup_setAttr_ne obj hd.1 k hd.2 hk1

/-- Every payload binding outside the ignored list is applied: after
the update loop the attribute holds the payload value. -/
theorem applyUpdates_applied (ignored : List String) (d : AttrMap) (k : String) (v : JVal)
    (hnd : (akeys d).Nodup) (hk : k ∉ ignored) (hv : alookup d k = some v) :
    ∀ obj : AttrMap, alookup (applyUpdates ignored obj d) k = some v := by
  induction d with
  | nil => exact absurd hv (by simp [alookup])
  | cons hd t ih =>
    intro obj
    simp only [akeys, List.map_cons, List.nodup_cons] at hnd
    rw [applyUpdates_cons]
    by_cases he : hd.1 = k
    · have hveq : v = hd.2 := by
        simp [alookup, he] at hv; exact hv.symm
      have hkt : k ∉ akeys t := by
        intro hm; exact hnd.1 (he ▸ hm)
      have hmem : hd.1 ∉ ignored := fun hm => hk (he ▸ hm)
      rw [if_neg hmem]
      rw [applyUpdates_not_mentioned ignored t k hkt (setAttr obj hd.1 hd.2)]
      rw [hveq, ← he]
      exact alookup_setAttr_self obj hd.1 hd.2
    · have hvt : alookup t k = some v := by
        simpa [alookup, he] using hv
      by_cases hmem : hd.1 ∈ ignored
      · rw [if_pos hmem]
        exact ih hnd.2 hvt obj
      · rw [if_neg hmem]
        exact ih hnd.2 hvt (setAttr obj hd.1 hd.2)

/-- Payload bindings on ignored keys are silently dropped: the update
loop gives the same object whether or not they are present. -/
theorem applyUpdates_filter (ignored : List String) (d : AttrMap) :
    ∀ obj : AttrMap,
      applyUpdates ignored obj d
        = applyUpdates ignored obj (d.filter (fun kv => decide (kv.1 ∉ ignored))) := by
  induction d with
  | nil => intro obj; rfl
  | cons hd t ih =>
    intro obj
    rw [applyUpdates_cons, List.filter_cons]
    by_cases hmem : hd.1 ∈ ignored
    · have hf : decide (hd.1 ∉ ignored) = false := by simp [hmem]
      rw [if_pos hmem, hf]
      simp only [Bool.false_eq_true, if_false]
      exact ih obj
    · have hf : decide (hd.1 ∉ ignored) = true := by simp [hmem]
      rw [if_neg hmem, hf]
      simp only [if_true]
      rw [applyUpdates_cons, if_neg hmem]
      exact ih (setAttr obj hd.1 hd.2)

/-- Updating the object stored under a present key makes it the value
read back for that key. -/
theorem alookup_aset_self (l : List (String × α)) (k : String) (v w : α)
    (h : alookup l k = some w) : alookup (aset l k v) k = some v := by
  induction l with
  | nil => exact absurd h (by simp [alookup])
  | cons hd t ih =>
    show alookup ((if hd.1 = k then (k, v) else hd) :: aset t k v) k = some v
    by_cases he : hd.1 = k
    · rw [if_pos he]; simp [alookup]
    · rw [if_neg he]
      have ht : alookup t k = some w := by simpa [alookup, he] using h
      simpa [alookup, he] using ih ht

/-- Removing the entry of one key leaves lookups of other keys alone. -/
theorem alookup_aerase_ne (l : List (String × α)) (k k2 : String) (h : k2 ≠ k) :
    alookup (aerase l k) k2 = alookup l k2 := by
  have hkk2 : ¬(k = k2) := fun he => h he.symm
  induction l with
  | nil => rfl
  | cons hd t ih =>
    by_cases he : hd.1 = k
    · simp [aerase, alookup, he, hkk2]
    · by_cases h3 : hd.1 = k2 <;> simp [aerase, alookup, he, h3, ih, h]

/-- Removing a present key shrinks the collection by exactly one. -/
theorem length_aerase_present (l : List (String × α)) (k : String)
    (h : (alookup l k).isSome) : (aerase l k).length + 1 = l.length := by
  induction l with
  | nil => simp [alookup] at h
  | cons hd t ih =>
    by_cases he : hd.1 = k
    · show (if hd.1 = k then t else (hd.1, hd.2) :: aerase t k).length + 1 = (hd :: t).length
      rw [if_pos he]
      simp
    · have ht : (alookup t k).isSome := by simpa [alookup, he] using h
      show (if hd.1 = k then t else (hd.1, hd.2) :: aerase t k).length + 1 = (hd :: t).length
      rw [if_neg he]
      simp only [List.length_cons]
      have := ih ht
      omega

/-- An id that occurs in a list is counted at least once. -/
theorem lcount_pos_of_mem (l : List String) (x : String) (h : x ∈ l) :
    1 ≤ lcount l x := by
  induction l with
  | nil => cases h
  | cons y t ih =>
    rcases List.mem_cons.mp h with h1 | h1
    · simp [lcount, h1]
    · have := ih h1; simp only [lcount]; omega

/-- An id that does not occur in a list is counted zero times. -/
theorem lcount_eq_zero_of_not_mem (l : List String) (x : String) (h : x ∉ l) :
    lcount l x = 0 := by
  induction l with
  | nil => rfl
  | cons y t ih =>
    have hy : y ≠ x := fun he => h (by simp [he])
    have ht : x ∉ t := fun hm => h (List.mem_cons_of_mem _ hm)
    simp [lcount, hy, ih ht]

/-- Appending one id increments its count. -/
theorem lcount_append_single (l : List String) (x : String) :
    lcount (l ++ [x]) x = lcount l x + 1 := by
  induction l with
  | nil => simp [lcount]
  | cons y t ih =>
    show (if y = x then 1 else 0) + lcount (t ++ [x]) x
      = (if y = x then 1 else 0) + lcount t x + 1
    rw [ih]
    omega

/-- Removing the first occurrence of a present id decrements its count. -/
theorem lcount_lerase_self (l : List String) (x : String) (h : x ∈ l) :
    lcount (lerase l x) x + 1 = lcount l x := by
  induction l with
  | nil => cases h
  | cons y t ih =>
    by_cases he : y = x
    · show lcount (if y = x then t else y :: lerase t x) x + 1
        = (if y = x then 1 else 0) + lcount t x
      rw [if_pos he, if_pos he]
      omega
    · have ht : x ∈ t := by
        rcases List.mem_cons.mp h with h1 | h1
        · exact absurd h1.symm he
        · exact h1
      show lcount (if y = x then t else y :: lerase t x) x + 1
        = (if y = x then 1 else 0) + lcount t x
      rw [if_neg he, if_neg he]
      show (if y = x then 1 else 0) + lcount (lerase t x) x + 1 = 0 + lcount t x
      rw [if_neg he]
      have := ih ht
      omega

/-- Removing one id leaves the counts of every other id unchanged. -/
theorem lcount_lerase_ne (l : List String) (x y : String) (h : y ≠ x) :
    lcount (lerase l x) y = lcount l y := by
  induction l with
  | nil => rfl
  | cons z t ih =>
    by_cases he : z = x
    · have hxy : ¬(x = y) := fun hx => h hx.symm
      simp [lerase, he, lcount, hxy]
    · simp [lerase, he, lcount, ih]

/-- A small concrete store used by the witness theorems: one state,
one city in it, one user, one place in the city owned by the user with
no linked amenities yet, and one amenity. -/
def wStore : Store :=
  { states := [("s1", [("name", .jstr "California")])]
  , cities := [("c1", [("name", .jstr "SF"), ("state_id", .jstr "s1")])]
  , users := [("u1", [("email", .jstr "ann@mail.io"), ("password", .jstr "pw")])]
  , places := [("p1", ⟨[("name", .jstr "Loft"), ("user_id", .jstr "u1"), ("city_id", .jstr "c1")], [], []⟩)]
  , reviews := []
  , amenities := [("a1", [("name", .jstr "Wifi")])] }

/-- C1: for an existing Place P and Amenity X, POST
/places/P/amenities/X is idempotent in both storage representations:
when X is already a member of the association list it answers 200 with
the amenity payload and leaves the store unchanged; when it is not, it
answers 201 with the same payload and appends exactly one entry for X;
and after two consecutive link calls the association list of P holds
exactly one entry for X. -/
theorem c1_link_idempotent (mode : Mode) (s : Store) (pid aid : String)
    (p : PlaceObj) (a : AttrMap)
    (hp : alookup s.places pid = some p)
    (ha : alookup s.amenities aid = some a)
    (hcount : lcount (assocIds mode p) aid ≤ 1) :
    (aid ∈ assocIds mode p →
        link_place_amenity mode s pid aid = (.json 200 (.obj a), s))
    ∧ (aid ∉ assocIds mode p →
        (link_place_amenity mode s pid aid).1 = .json 201 (.obj a)
        ∧ ∃ p1, alookup (link_place_amenity mode s pid aid).2.places pid = some p1
            ∧ assocIds mode p1 = assocIds mode p ++ [aid]
            ∧ lcount (assocIds mode p1) aid = 1)
    ∧ ((link_place_amenity mode (link_place_amenity mode s pid aid).2 pid aid).1
          = .json 200 (.obj a)
        ∧ ∃ p2, alookup
              (link_place_amenity mode (link_place_amenity mode s pid aid).2 pid aid).2.places pid
            = some p2
            ∧ lcount (assocIds mode p2) aid = 1) := by
  cases mode with
  | db =>
    simp only [assocIds] at hcount ⊢
    by_cases hm : aid ∈ p.amenities
    · have hlink : link_place_amenity .db s pid aid = (.json 200 (.obj a), s) := by
        simp [link_place_amenity, hp, ha, hm]
      have hone : lcount p.amenities aid = 1 := by
        have := lcount_pos_of_mem _ _ hm
        omega
      have h2 : (link_place_amenity .db s pid aid).2 = s := by rw [hlink]
      refine ⟨fun _ => hlink, fun hnm => absurd hm hnm, ?_⟩
      rw [h2, hlink]
      exact ⟨rfl, p, hp, hone⟩
    · have hlink : link_place_amenity .db s pid aid
          = (.json 201 (.obj a),
            { s with places := aset s.places pid { p with amenities := p.amenities ++ [aid] } }) := by
        simp [link_place_amenity, hp, ha, hm]
      have hlook : alookup
          (aset s.places pid { p with amenities := p.amenities ++ [aid] }) pid
          = some { p with amenities := p.amenities ++ [aid] } :=
        alookup_aset_self s.places pid _ p hp
      have hone : lcount (p.amenities ++ [aid]) aid = 1 := by
        rw [lcount_append_single, lcount_eq_zero_of_not_mem _ _ hm]
      have hmem2 : aid ∈ p.amenities ++ [aid] := by simp
      refine ⟨fun hmm => absurd hmm hm, fun _ => ?_, ?_⟩
      · rw [hlink]
        exact ⟨rfl, { p with amenities := p.amenities ++ [aid] }, hlook, rfl, hone⟩
      · rw [hlink]
        refine ⟨?_, { p with amenities := p.amenities ++ [aid] }, ?_, hone⟩
        · simp [link_place_amenity, hlook, ha, hmem2]
        · simp [link_place_amenity, hlook, ha, hmem2]
  | file =>
    simp only [assocIds] at hcount ⊢
    by_cases hm : aid ∈ p.amenity_ids
    · have hlink : link_place_amenity .file s pid aid = (.json 200 (.obj a), s) := by
        simp [link_place_amenity, hp, ha, hm]
      have hone : lcount p.amenity_ids aid = 1 := by
        have := lcount_pos_of_mem _ _ hm
        omega
      have h2 : (link_place_amenity .file s pid aid).2 = s := by rw [hlink]
      refine ⟨fun _ => hlink, fun hnm => absurd hm hnm, ?_⟩
      rw [h2, hlink]
      exact ⟨rfl, p, hp, hone⟩
    · have hlink : link_place_amenity .file s pid aid
          = (.json 201 (.obj a),
            { s with places := aset s.places pid { p with amenity_ids := p.amenity_ids ++ [aid] } }) := by
        simp [link_place_amenity, hp, ha, hm]
      have hlook : alookup
          (aset s.places pid { p with amenity_ids := p.amenity_ids ++ [aid] }) pid
          = some { p with amenity_ids := p.amenity_ids ++ [aid] } :=
        alookup_aset_self s.places pid _ p hp
      have hone : lcount (p.amenity_ids ++ [aid]) aid = 1 := by
        rw [lcount_append_single, lcount_eq_zero_of_not_mem _ _ hm]
      have hmem2 : aid ∈ p.amenity_ids ++ [aid] := by simp
      refine ⟨fun hmm => absurd hmm hm, fun _ => ?_, ?_⟩
      · rw [hlink]
        exact ⟨rfl, { p with amenity_ids := p.amenity_ids ++ [aid] }, hlook, rfl, hone⟩
      · rw [hlink]
        refine ⟨?_, { p with amenity_ids := p.amenity_ids ++ [aid] }, ?_, hone⟩
        · simp [link_place_amenity, hlook, ha, hmem2]
        · simp [link_place_amenity, hlook, ha, hmem2]

/-- Witness for C1: in the concrete store, linking amenity a1 to place
p1 twice in file mode answers 200 the second time with the amenity
payload. -/
theorem c1_witness :
    (link_place_amenity .file (link_place_amenity .file wStore "p1" "a1").2 "p1" "a1").1
      = .json 200 (.obj [("name", .jstr "Wifi")]) :=
  ((c1_link_idempotent .file wStore "p1" "a1" _ _ rfl rfl (by decide)).2.2).1

/-- C2: DELETE /places/P/amenities/X fails with 404 and leaves the
store unchanged when the place is missing, when the amenity is
missing, or when the amenity is not currently a member of the active
association list; when all three checks pass it removes exactly the
entry for X from that list, persists the change and answers 200 with
an empty object. -/
theorem c2_unlink_checks (mode : Mode) (s : Store) (pid aid : String) :
    (alookup s.places pid = none →
        delete_place_amenity mode s pid aid = (.abort404, s))
    ∧ (alookup s.amenities aid = none →
        delete_place_amenity mode s pid aid = (.abort404, s))
    ∧ (∀ p a, alookup s.places pid = some p → alookup s.amenities aid = some a →
        aid ∉ assocIds mode p →
        delete_place_amenity mode s pid aid = (.abort404, s))
    ∧ (∀ p a, alookup s.places pid = some p → alookup s.amenities aid = some a →
        aid ∈ assocIds mode p →
        (delete_place_amenity mode s pid aid).1 = .json 200 (.obj [])
        ∧ ∃ p2, alookup (delete_place_amenity mode s pid aid).2.places pid = some p2
            ∧ assocIds mode p2 = lerase (assocIds mode p) aid
            ∧ lcount (assocIds mode p2) aid + 1 = lcount (assocIds mode p) aid
            ∧ ∀ y, y ≠ aid → lcount (assocIds mode p2) y = lcount (assocIds mode p) y) := by
  refine ⟨?_, ?_, ?_, ?_⟩
  · intro h
    cases ha : alookup s.amenities aid <;> simp [delete_place_amenity, h, ha]
  · intro h
    cases hp : alookup s.places pid <;> simp [delete_place_amenity, h, hp]
  · intro p a hp ha hnm
    cases mode <;> simp only [assocIds] at hnm <;>
      simp [delete_place_amenity, hp, ha, hnm]
  · intro p a hp ha hm
    cases mode with
    | db =>
      simp only [assocIds] at hm ⊢
      have hdel : delete_place_amenity .db s pid aid
          = (.json 200 (.obj []),
            { s with places := aset s.places pid { p with amenities := lerase p.amenities aid } }) := by
        simp [delete_place_amenity, hp, ha, hm]
      rw [hdel]
      refine ⟨rfl, { p with amenities := lerase p.amenities aid },
        alookup_aset_self s.places pid _ p hp, rfl,
        lcount_lerase_self p.amenities aid hm,
        fun y hy => lcount_lerase_ne p.amenities aid y hy⟩
    | file =>
      simp only [assocIds] at hm ⊢
      have hdel : delete_place_amenity .file s pid aid
          = (.json 200 (.obj []),
            { s with places := aset s.places pid { p with amenity_ids := lerase p.amenity_ids aid } }) := by
        simp [delete_place_amenity, hp, ha, hm]
      rw [hdel]
      refine ⟨rfl, { p with amenity_ids := lerase p.amenity_ids aid },
        alookup_aset_self s.places pid _ p hp, rfl,
        lcount_lerase_self p.amenity_ids aid hm,
        fun y hy => lcount_lerase_ne p.amenity_ids aid y hy⟩

/-- Witness for C2: in the concrete store, unlinking amenity a1 from
place p1, which has no linked amenities, answers 404 and leaves the
store unchanged. -/
theorem c2_witness :
    delete_place_amenity .file wStore "p1" "a1" = (.abort404, wStore) :=
  (c2_unlink_checks .file wStore "p1" "a1").2.2.1 _ _ rfl rfl (by decide)

/-- A payload with a truthy value under some key is a non-empty
object. -/
theorem truthy_dictGet_ne_nil (d : AttrMap) (k : String)
    (h : (dictGet d k).truthy = true) : d.isEmpty = false := by
  cases d with
  | nil => simp [dictGet, alookup, JVal.truthy] at h
  | cons hd t => rfl

/-- Counterexample to C3: the empty JSON object is a well-formed
payload with no user_id, yet create_place answers "Not a JSON", not
"Missing user_id", because the code tests the truthiness of the parsed
body rather than its parseability. -/
theorem c3_counterexample :
    create_place wStore "c1" (some []) "np" "t0"
        = (.json 400 (.err "Not a JSON"), wStore)
    ∧ ("Not a JSON" : String) ≠ "Missing user_id" :=
  ⟨rfl, by decide⟩

/-- C3 as amended: for Place creation under a city id and Review
creation under a place id the checks run in this order, the first
failing one determining the single error: (1) parent existence (404);
(2) payload truthiness, where an absent, unparseable or empty-object
body is rejected with 400 "Not a JSON"; (3) for a payload carrying a
truthy user_id, existence of that User (404); (4) presence of the
remaining required field name resp. text (400 Missing name / Missing
text); and a well-formed non-empty payload without user_id fails with
400 "Missing user_id" with no User lookup performed, the outcome being
the same for every users collection. -/
theorem c3_create_check_order (s : Store) (cid plid : String) (body : Option AttrMap)
    (fid now : String) :
    (alookup s.cities cid = none → create_place s cid body fid now = (.abort404, s))
    ∧ ((alookup s.cities cid).isSome → bodyFalsy body = true →
        create_place s cid body fid now = (.json 400 (.err "Not a JSON"), s))
    ∧ (∀ d, (alookup s.cities cid).isSome → body = some d → d ≠ [] →
        (dictGet d "user_id").truthy = false →
        create_place s cid body fid now = (.json 400 (.err "Missing user_id"), s)
        ∧ ∀ users2, (create_place { s with users := users2 } cid body fid now).1
            = .json 400 (.err "Missing user_id"))
    ∧ (∀ d, (alookup s.cities cid).isSome → body = some d →
        (dictGet d "user_id").truthy = true →
        getUserByJVal s (dictGet d "user_id") = none →
        create_place s cid body fid now = (.abort404, s))
    ∧ (∀ d u, (alookup s.cities cid).isSome → body = some d →
        (dictGet d "user_id").truthy = true →
        getUserByJVal s (dictGet d "user_id") = some u →
        (dictGet d "name").truthy = false →
        create_place s cid body fid now = (.json 400 (.err "Missing name"), s))
    ∧ (alookup s.places plid = none → create_review s plid body fid now = (.abort404, s))
    ∧ ((alookup s.places plid).isSome → bodyFalsy body = true →
        create_review s plid body fid now = (.json 400 (.err "Not a JSON"), s))
    ∧ (∀ d, (alookup s.places plid).isSome → body = some d → d ≠ [] →
        (dictGet d "user_id").truthy = false →
        create_review s plid body fid now = (.json 400 (.err "Missing user_id"), s)
        ∧ ∀ users2, (create_review { s with users := users2 } plid body fid now).1
            = .json 400 (.err "Missing user_id"))
    ∧ (∀ d, (alookup s.places plid).isSome → body = some d →
        (dictGet d "user_id").truthy = true →
        getUserByJVal s (dictGet d "user_id") = none →
        create_review s plid body fid now = (.abort404, s))
    ∧ (∀ d u, (alookup s.places plid).isSome → body = some d →
        (dictGet d "user_id").truthy = true →
        getUserByJVal s (dictGet d "user_id") = some u →
        (dictGet d "text").truthy = false →
        create_review s plid body fid now = (.json 400 (.err "Missing text"), s)) := by
  refine ⟨?_, ?_, ?_, ?_, ?_, ?_, ?_, ?_, ?_, ?_⟩
  · intro h
    simp [create_place, h]
  · intro h hb
    obtain ⟨c, hc⟩ := Option.isSome_iff_exists.mp h
    simp [create_place, hc, hb]
  · intro d h hbody hdne hu
    obtain ⟨c, hc⟩ := Option.isSome_iff_exists.mp h
    have hne : d.isEmpty = false := by
      cases d with
      | nil => exact absurd rfl hdne
      | cons hd t => rfl
    subst hbody
    exact ⟨by simp [create_place, hc, bodyFalsy, hne, hu],
      fun users2 => by simp [create_place, hc, bodyFalsy, hne, hu]⟩
  · intro d h hbody hu hgu
    obtain ⟨c, hc⟩ := Option.isSome_iff_exists.mp h
    have hne : d.isEmpty = false := truthy_dictGet_ne_nil d "user_id" hu
    subst hbody
    simp [create_place, hc, bodyFalsy, hne, hu, hgu]
  · intro d u h hbody hu hgu hn
    obtain ⟨c, hc⟩ := Option.isSome_iff_exists.mp h
    have hne : d.isEmpty = false := truthy_dictGet_ne_nil d "user_id" hu
    subst hbody
    simp [create_place, hc, bodyFalsy, hne, hu, hgu, hn]
  · intro h
    simp [create_review, h]
  · intro h hb
    obtain ⟨c, hc⟩ := Option.isSome_iff_exists.mp h
    simp [create_review, hc, hb]
  · intro d h hbody hdne hu
    obtain ⟨c, hc⟩ := Option.isSome_iff_exists.mp h
    have hne : d.isEmpty = false := by
      cases d with
      | nil => exact absurd rfl hdne
      | cons hd t => rfl
    subst hbody
    exact ⟨by simp [create_review, hc, bodyFalsy, hne, hu],
      fun users2 => by simp [create_review, hc, bodyFalsy, hne, hu]⟩
  · intro d h hbody hu hgu
    obtain ⟨c, hc⟩ := Option.isSome_iff_exists.mp h
    have hne : d.isEmpty = false := truthy_dictGet_ne_nil d "user_id" hu
    subst hbody
    simp [create_review, hc, bodyFalsy, hne, hu, hgu]
  · intro d u h hbody hu hgu hn
    obtain ⟨c, hc⟩ := Option.isSome_iff_exists.mp h
    have hne : d.isEmpty = false := truthy_dictGet_ne_nil d "user_id" hu
    subst hbody
    simp [create_review, hc, bodyFalsy, hne, hu, hgu, hn]

/-- Witness for C3: a non-empty Place payload without user_id fails
with Missing user_id and changes nothing. -/
theorem c3_witness :
    create_place wStore "c1" (some [("name", JVal.jstr "Casa")]) "np" "t0"
      = (.json 400 (.err "Missing user_id"), wStore) :=
  ((c3_create_check_order wStore "c1" "p1" (some [("name", JVal.jstr "Casa")]) "np" "t0").2.2.1
    [("name", JVal.jstr "Casa")] rfl rfl (List.cons_ne_nil _ _) rfl).1

/-- A membership fact used below: updated_at is protected for every
resource type. -/
theorem updated_at_mem_placeIgnored : "updated_at" ∈ placeIgnoredKeys := by decide

/-- C4: updates apply every payload key verbatim except those in the
per-type protected list; protected keys in the payload are silently
dropped (the update loop is oblivious to them), non-protected keys,
known or unknown, are applied, the response status is 200, and the
resulting object is persisted.  The first conjunct states this for the
protected list of every one of the six resource types; the later
conjuncts state it at handler level for update_place and update_user. -/
theorem c4_update_protected (s : Store) (pid uid : String) (d : AttrMap) (now : String) :
    (∀ ignored ∈ [stateIgnoredKeys, cityIgnoredKeys, amenityIgnoredKeys,
        userIgnoredKeys, placeIgnoredKeys, reviewIgnoredKeys],
      ∀ obj : AttrMap,
        applyUpdates ignored obj d
            = applyUpdates ignored obj (d.filter (fun kv => decide (kv.1 ∉ ignored)))
        ∧ (∀ k, k ∈ ignored → alookup (applyUpdates ignored obj d) k = alookup obj k)
        ∧ (∀ k v, (akeys d).Nodup → k ∉ ignored → alookup d k = some v →
            alookup (applyUpdates ignored obj d) k = some v))
    ∧ (∀ p, alookup s.places pid = some p → d ≠ [] →
        (update_place s pid (some d) now).1
          = .json 200 (.obj (objSave (applyUpdates placeIgnoredKeys p.attrs d) now))
        ∧ (∀ k, k ∈ placeIgnoredKeys → k ≠ "updated_at" →
            alookup (objSave (applyUpdates placeIgnoredKeys p.attrs d) now) k
              = alookup p.attrs k)
        ∧ alookup (objSave (applyUpdates placeIgnoredKeys p.attrs d) now) "updated_at"
            = some (.jstr now)
        ∧ (∀ k v, (akeys d).Nodup → k ∉ placeIgnoredKeys → alookup d k = some v →
            alookup (objSave (applyUpdates placeIgnoredKeys p.attrs d) now) k = some v)
        ∧ ∃ p2, alookup (update_place s pid (some d) now).2.places pid = some p2
            ∧ p2.attrs = objSave (applyUpdates placeIgnoredKeys p.attrs d) now)
    ∧ (∀ u, alookup s.users uid = some u → d ≠ [] →
        (update_user s uid (some d) now).1
          = .json 200 (.obj (objSave (applyUpdates userIgnoredKeys u d) now))
        ∧ (∀ k, k ∈ userIgnoredKeys → k ≠ "updated_at" →
            alookup (objSave (applyUpdates userIgnoredKeys u d) now) k = alookup u k)
        ∧ (∀ k v, (akeys d).Nodup → k ∉ userIgnoredKeys → alookup d k = some v →
            alookup (objSave (applyUpdates userIgnoredKeys u d) now) k = some v)
        ∧ ∃ u2, alookup (update_user s uid (some d) now).2.users uid = some u2
            ∧ u2 = objSave (applyUpdates userIgnoredKeys u d) now) := by
  refine ⟨?_, ?_, ?_⟩
  · intro ignored _ obj
    exact ⟨applyUpdates_filter ignored d obj,
      fun k hk => applyUpdates_ignored ignored d k hk obj,
      fun k v hnd hk hv => applyUpdates_applied ignored d k v hnd hk hv obj⟩
  · intro p hp hdne
    have hne : d.isEmpty = false := by
      cases d with
      | nil => exact absurd rfl hdne
      | cons hd t => rfl
    have hupd : update_place s pid (some d) now
        = (.json 200 (.obj (objSave (applyUpdates placeIgnoredKeys p.attrs d) now)),
          { s with
              places := aset s.places pid
                { p with attrs := objSave (applyUpdates placeIgnoredKeys p.attrs d) now } }) := by
      simp [update_place, hp, bodyFalsy, hne]
    refine ⟨by rw [hupd], ?_, ?_, ?_, ?_⟩
    · intro k hk hku
      unfold objSave
      rw [alookup_setAttr_ne _ _ _ _ hku]
      exact applyUpdates_ignored placeIgnoredKeys d k hk p.attrs
    · exact alookup_setAttr_self _ _ _
    · intro k v hnd hk hv
      have hku : k ≠ "updated_at" := fun he => hk (he ▸ updated_at_mem_placeIgnored)
      unfold objSave
      rw [alookup_setAttr_ne _ _ _ _ hku]
      exact applyUpdates_applied placeIgnoredKeys d k v hnd hk hv p.attrs
    · rw [hupd]
      exact ⟨{ p with attrs := objSave (applyUpdates placeIgnoredKeys p.attrs d) now },
        alookup_aset_self s.places pid _ p hp, rfl⟩
  · intro u hu hdne
    have hne : d.isEmpty = false := by
      cases d with
      | nil => exact absurd rfl hdne
      | cons hd t => rfl
    have hupd : update_user s uid (some d) now
        = (.json 200 (.obj (objSave (applyUpdates userIgnoredKeys u d) now)),
          { s with users := aset s.users uid (objSave (applyUpdates userIgnoredKeys u d) now) }) := by
      simp [update_user, hu, bodyFalsy, hne]
    refine ⟨by rw [hupd], ?_, ?_, ?_⟩
    · intro k hk hku
      unfold objSave
      rw [alookup_setAttr_ne _ _ _ _ hku]
      exact applyUpdates_ignored userIgnoredKeys d k hk u
    · intro k v hnd hk hv
      have hku : k ≠ "updated_at" := fun he => hk (he ▸ (by decide : "updated_at" ∈ userIgnoredKeys))
      unfold objSave
      rw [alookup_setAttr_ne _ _ _ _ hku]
      exact applyUpdates_applied userIgnoredKeys d k v hnd hk hv u
    · rw [hupd]
      exact ⟨objSave (applyUpdates userIgnoredKeys u d) now,
        alookup_aset_self s.users uid _ u hu, rfl⟩

/-- Witness for C4: updating user u1 with a payload that tries to
change the protected email and also sets a new unknown key leaves the
email attribute untouched. -/
theorem c4_witness :
    alookup (objSave (applyUpdates userIgnoredKeys
        [("email", JVal.jstr "ann@mail.io"), ("password", JVal.jstr "pw")]
        [("email", JVal.jstr "evil@mail.io"), ("nick", JVal.jstr "Ann")]) "t1") "email"
      = some (JVal.jstr "ann@mail.io") :=
  (((c4_update_protected wStore "p1" "u1"
      [("email", JVal.jstr "evil@mail.io"), ("nick", JVal.jstr "Ann")] "t1").2.2
    _ rfl (List.cons_ne_nil _ _)).2.1 "email" (by decide) (by decide)).trans rfl

/-- Counterexample to C5: the empty mapping is a well-formed create
payload lacking the required name, yet create_state rejects it with
400 "Not a JSON" instead of 400 "Missing name". -/
theorem c5_counterexample :
    create_state wStore (some []) "nx" "t0" = (.json 400 (.err "Not a JSON"), wStore)
    ∧ ("Not a JSON" : String) ≠ "Missing name" :=
  ⟨rfl, by decide⟩

/-- C5 as amended: for every well-formed non-empty create payload that
lacks (or binds falsily) a required field, creation fails with 400 and
the body Missing followed by the first missing field in declared order
(name for State and Amenity, email then password for User), and the
store is unchanged, so a subsequent list shows no new entry; the empty
mapping is instead rejected with 400 "Not a JSON". -/
theorem c5_missing_required (s : Store) (d : AttrMap) (fid now sid cid plid : String)
    (hd : d ≠ []) :
    ((dictGet d "name").truthy = false →
        create_state s (some d) fid now = (.json 400 (.err "Missing name"), s)
        ∧ list_all_states (create_state s (some d) fid now).2 = list_all_states s
        ∧ create_amenity s (some d) fid now = (.json 400 (.err "Missing name"), s))
    ∧ ((dictGet d "email").truthy = false →
        create_user s (some d) fid now = (.json 400 (.err "Missing email"), s))
    ∧ ((dictGet d "email").truthy = true → (dictGet d "password").truthy = false →
        create_user s (some d) fid now = (.json 400 (.err "Missing password"), s))
    ∧ (∀ st, alookup s.states sid = some st → (dictGet d "name").truthy = false →
        create_city s sid (some d) fid now = (.json 400 (.err "Missing name"), s))
    ∧ (∀ c, alookup s.cities cid = some c → (dictGet d "user_id").truthy = false →
        create_place s cid (some d) fid now = (.json 400 (.err "Missing user_id"), s))
    ∧ (∀ c u, alookup s.cities cid = some c → (dictGet d "user_id").truthy = true →
        getUserByJVal s (dictGet d "user_id") = some u →
        (dictGet d "name").truthy = false →
        create_place s cid (some d) fid now = (.json 400 (.err "Missing name"), s))
    ∧ (∀ p, alookup s.places plid = some p → (dictGet d "user_id").truthy = false →
        create_review s plid (some d) fid now = (.json 400 (.err "Missing user_id"), s))
    ∧ (∀ p u, alookup s.places plid = some p → (dictGet d "user_id").truthy = true →
        getUserByJVal s (dictGet d "user_id") = some u →
        (dictGet d "text").truthy = false →
        create_review s plid (some d) fid now = (.json 400 (.err "Missing text"), s)) := by
  have hne : d.isEmpty = false := by
    cases d with
    | nil => exact absurd rfl hd
    | cons x t => rfl
  refine ⟨?_, ?_, ?_, ?_, ?_, ?_, ?_, ?_⟩
  · intro h
    have hcs : create_state s (some d) fid now = (.json 400 (.err "Missing name"), s) := by
      simp [create_state, bodyFalsy, hne, h]
    exact ⟨hcs, by rw [hcs], by simp [create_amenity, bodyFalsy, hne, h]⟩
  · intro h
    simp [create_user, bodyFalsy, hne, h]
  · intro he hp
    simp [create_user, bodyFalsy, hne, he, hp]
  · intro st hst h
    simp [create_city, hst, bodyFalsy, hne, h]
  · intro c hc h
    simp [create_place, hc, bodyFalsy, hne, h]
  · intro c u hc hu hg h
    simp [create_place, hc, bodyFalsy, hne, hu, hg, h]
  · intro p hp h
    simp [create_review, hp, bodyFalsy, hne, h]
  · intro p u hp hu hg h
    simp [create_review, hp, bodyFalsy, hne, hu, hg, h]

/-- Witness for C5: creating a user with only an email fails with
Missing password and changes nothing. -/
theorem c5_witness :
    create_user wStore (some [("email", JVal.jstr "bo@mail.io")]) "nu" "t0"
      = (.json 400 (.err "Missing password"), wStore) :=
  (c5_missing_required wStore [("email", JVal.jstr "bo@mail.io")] "nu" "t0" "s1" "c1" "p1"
    (List.cons_ne_nil _ _)).2.2.1 rfl rfl

/-- Counterexample to C6: a request body that parses to the empty
mapping, a perfectly well-formed JSON object, is nevertheless rejected
by update_state with 400 "Not a JSON", against the claim that a body
parsing to a mapping is never rejected with this error. -/
theorem c6_counterexample :
    update_state wStore "s1" (some []) "t0" = (.json 400 (.err "Not a JSON"), wStore) :=
  rfl

/-- C6 as amended: a request body that is absent, unparseable, or
parses to an empty object is rejected with 400 "Not a JSON" before any
field is applied or object created, leaving the store unchanged
(existence checks that precede the body check still apply); and a body
parsing to a non-empty object is never rejected with this error. -/
theorem c6_not_a_json (s : Store) (rid : String) (body : Option AttrMap) (fid now : String) :
    (bodyFalsy body = true →
        create_state s body fid now = (.json 400 (.err "Not a JSON"), s)
        ∧ create_user s body fid now = (.json 400 (.err "Not a JSON"), s)
        ∧ create_amenity s body fid now = (.json 400 (.err "Not a JSON"), s)
        ∧ (∀ st, alookup s.states rid = some st →
            update_state s rid body now = (.json 400 (.err "Not a JSON"), s))
        ∧ (∀ u, alookup s.users rid = some u →
            update_user s rid body now = (.json 400 (.err "Not a JSON"), s))
        ∧ (∀ c, alookup s.cities rid = some c →
            create_place s rid body fid now = (.json 400 (.err "Not a JSON"), s)))
    ∧ (∀ d, body = some d → d ≠ [] →
        (create_state s body fid now).1 ≠ .json 400 (.err "Not a JSON")
        ∧ (create_user s body fid now).1 ≠ .json 400 (.err "Not a JSON")
        ∧ (create_amenity s body fid now).1 ≠ .json 400 (.err "Not a JSON")
        ∧ (update_state s rid body now).1 ≠ .json 400 (.err "Not a JSON")
        ∧ (update_user s rid body now).1 ≠ .json 400 (.err "Not a JSON")
        ∧ (create_place s rid body fid now).1 ≠ .json 400 (.err "Not a JSON")
        ∧ (create_review s rid body fid now).1 ≠ .json 400 (.err "Not a JSON")) := by
  constructor
  · intro hb
    refine ⟨by simp [create_state, hb], by simp [create_user, hb],
      by simp [create_amenity, hb], ?_, ?_, ?_⟩
    · intro st hst
      simp [update_state, hst, hb]
    · intro u hu
      simp [update_user, hu, hb]
    · intro c hc
      simp [create_place, hc, hb]
  · intro d hbody hdne
    subst hbody
    have hne : d.isEmpty = false := by
      cases d with
      | nil => exact absurd rfl hdne
      | cons x t => rfl
    refine ⟨?_, ?_, ?_, ?_, ?_, ?_, ?_⟩
    · by_cases hn : (dictGet d "name").truthy <;>
        simp [create_state, bodyFalsy, hne, hn]
    · by_cases he : (dictGet d "email").truthy
      · by_cases hpw : (dictGet d "password").truthy <;>
          simp [create_user, bodyFalsy, hne, he, hpw]
      · simp [create_user, bodyFalsy, hne, he]
    · by_cases hn : (dictGet d "name").truthy <;>
        simp [create_amenity, bodyFalsy, hne, hn]
    · cases hst : alookup s.states rid with
      | none => simp [update_state, hst]
      | some st => simp [update_state, hst, bodyFalsy, hne]
    · cases hu : alookup s.users rid with
      | none => simp [update_user, hu]
      | some u => simp [update_user, hu, bodyFalsy, hne]
    · cases hc : alookup s.cities rid with
      | none => simp [create_place, hc]
      | some c =>
        by_cases hu : (dictGet d "user_id").truthy
        · cases hg : getUserByJVal s (dictGet d "user_id") with
          | none => simp [create_place, hc, bodyFalsy, hne, hu, hg]
          | some u =>
            by_cases hn : (dictGet d "name").truthy <;>
              simp [create_place, hc, bodyFalsy, hne, hu, hg, hn]
        · simp [create_place, hc, bodyFalsy, hne, hu]
    · cases hpl : alookup s.places rid with
      | none => simp [create_review, hpl]
      | some p =>
        by_cases hu : (dictGet d "user_id").truthy
        · cases hg : getUserByJVal s (dictGet d "user_id") with
          | none => simp [create_review, hpl, bodyFalsy, hne, hu, hg]
          | some u =>
            by_cases ht : (dictGet d "text").truthy <;>
              simp [create_review, hpl, bodyFalsy, hne, hu, hg, ht]
        · simp [create_review, hpl, bodyFalsy, hne, hu]

/-- Witness for C6: an absent or unparseable body on create_state is
rejected with 400 "Not a JSON" and the store is unchanged. -/
theorem c6_witness :
    create_state wStore none "nx" "t0" = (.json 400 (.err "Not a JSON"), wStore) :=
  ((c6_not_a_json wStore "s1" none "nx" "t0").1 rfl).1

/-- C7: on every successful child creation the parent id taken from
the URL path is force-assigned into the created object before the
constructor runs, so the stored foreign key equals the path parent id
whatever value the client supplied for that field: state_id for a City
under a State, city_id for a Place under a City, place_id for a Review
under a Place. -/
theorem c7_parent_fk_forced (s : Store) (sid cid plid : String) (d : AttrMap)
    (fid now : String) :
    (∀ st, alookup s.states sid = some st → (dictGet d "name").truthy = true →
        create_city s sid (some d) fid now
          = (.json 201 (.obj (mkObject (setAttr d "state_id" (.jstr sid)) fid now)),
            { s with cities := s.cities
                ++ [(fid, mkObject (setAttr d "state_id" (.jstr sid)) fid now)] })
        ∧ alookup (mkObject (setAttr d "state_id" (.jstr sid)) fid now) "state_id"
            = some (.jstr sid))
    ∧ (∀ c u, alookup s.cities cid = some c →
        (dictGet d "user_id").truthy = true →
        getUserByJVal s (dictGet d "user_id") = some u →
        (dictGet d "name").truthy = true →
        create_place s cid (some d) fid now
          = (.json 201 (.obj (mkObject (setAttr d "city_id" (.jstr cid)) fid now)),
            { s with places := s.places
                ++ [(fid, ⟨mkObject (setAttr d "city_id" (.jstr cid)) fid now, [], []⟩)] })
        ∧ alookup (mkObject (setAttr d "city_id" (.jstr cid)) fid now) "city_id"
            = some (.jstr cid))
    ∧ (∀ p u, alookup s.places plid = some p →
        (dictGet d "user_id").truthy = true →
        getUserByJVal s (dictGet d "user_id") = some u →
        (dictGet d "text").truthy = true →
        create_review s plid (some d) fid now
          = (.json 201 (.obj (mkObject (setAttr d "place_id" (.jstr plid)) fid now)),
            { s with reviews := s.reviews
                ++ [(fid, mkObject (setAttr d "place_id" (.jstr plid)) fid now)] })
        ∧ alookup (mkObject (setAttr d "place_id" (.jstr plid)) fid now) "place_id"
            = some (.jstr plid)) := by
  refine ⟨?_, ?_, ?_⟩
  · intro st hst hn
    have hne : d.isEmpty = false := truthy_dictGet_ne_nil d "name" hn
    refine ⟨by simp [create_city, hst, bodyFalsy, hne, hn], ?_⟩
    rw [alookup_mkObject_other _ _ _ _ (by decide) (by decide) (by decide)]
    exact alookup_setAttr_self d "state_id" (.jstr sid)
  · intro c u hc hu hg hn
    have hne : d.isEmpty = false := truthy_dictGet_ne_nil d "name" hn
    refine ⟨by simp [create_place, hc, bodyFalsy, hne, hu, hg, hn], ?_⟩
    rw [alookup_mkObject_other _ _ _ _ (by decide) (by decide) (by decide)]
    exact alookup_setAttr_self d "city_id" (.jstr cid)
  · intro p u hp hu hg ht
    have hne : d.isEmpty = false := truthy_dictGet_ne_nil d "text" ht
    refine ⟨by simp [create_review, hp, bodyFalsy, hne, hu, hg, ht], ?_⟩
    rw [alookup_mkObject_other _ _ _ _ (by decide) (by decide) (by decide)]
    exact alookup_setAttr_self d "place_id" (.jstr plid)

/-- Witness for C7: creating a city under state s1 with a payload that
claims state_id bogus yields an object whose state_id is s1. -/
theorem c7_witness :
    alookup (mkObject (setAttr [("name", JVal.jstr "LA"), ("state_id", JVal.jstr "bogus")]
        "state_id" (.jstr "s1")) "nc" "t0") "state_id"
      = some (.jstr "s1") :=
  ((c7_parent_fk_forced wStore "s1" "c1" "p1"
      [("name", JVal.jstr "LA"), ("state_id", JVal.jstr "bogus")] "nc" "t0").1
    _ rfl rfl).2

/-- A sequence of POST /states calls: each item is the fresh id and
the payload of one create_state request. -/
def createStatesFold (now : String) (s : Store) (items : List (String × AttrMap)) : Store :=
  items.foldl (fun st it => (create_state st (some it.2) it.1 now).2) s

/-- A sequence of DELETE /states/id calls. -/
def deleteStatesFold (s : Store) (ids : List String) : Store :=
  ids.foldl (fun st i => (delete_a_state st i).2) s

/-- A valid create_state call appends exactly one entry and touches
nothing else. -/
theorem create_state_valid_states (s : Store) (d : AttrMap) (fid now : String)
    (hne : d.isEmpty = false) (hn : (dictGet d "name").truthy = true) :
    (create_state s (some d) fid now).2.states = s.states ++ [(fid, mkObject d fid now)] := by
  simp [create_state, bodyFalsy, hne, hn]

/-- N valid create_state calls grow the State collection by N. -/
theorem createStatesFold_length (now : String) (items : List (String × AttrMap)) :
    ∀ s : Store,
      (∀ it ∈ items, it.2.isEmpty = false ∧ (dictGet it.2 "name").truthy = true) →
      (createStatesFold now s items).states.length = s.states.length + items.length := by
  induction items with
  | nil => intro s _; rfl
  | cons it t ih =>
    intro s h
    have hit := h it (by simp)
    have hstep := create_state_valid_states s it.2 it.1 now hit.1 hit.2
    show (createStatesFold now (create_state s (some it.2) it.1 now).2 t).states.length
      = s.states.length + (it :: t).length
    rw [ih _ (fun j hj => h j (by simp [hj])), hstep]
    simp
    omega

/-- Deleting a present State removes exactly its entry. -/
theorem delete_a_state_present (s : Store) (i : String)
    (h : (alookup s.states i).isSome) :
    (delete_a_state s i).2.states = aerase s.states i := by
  obtain ⟨v, hv⟩ := Option.isSome_iff_exists.mp h
  simp [delete_a_state, hv]

/-- M delete_a_state calls on distinct present ids shrink the State
collection by M. -/
theorem deleteStatesFold_length (ids : List String) :
    ∀ s : Store, ids.Nodup → (∀ i ∈ ids, (alookup s.states i).isSome) →
      (deleteStatesFold s ids).states.length + ids.length = s.states.length := by
  induction ids with
  | nil => intro s _ _; rfl
  | cons i t ih =>
    intro s hnd hall
    have hi := hall i (by simp)
    have hstep := delete_a_state_present s i hi
    have hlen := length_aerase_present s.states i hi
    have hnd2 := List.nodup_cons.mp hnd
    have hall2 : ∀ j ∈ t, (alookup (delete_a_state s i).2.states j).isSome := by
      intro j hj
      have hne : j ≠ i := by
        intro he; rw [he] at hj; exact hnd2.1 hj
      rw [hstep, alookup_aerase_ne _ _ _ hne]
      exact hall j (by simp [hj])
    have hrec := ih (delete_a_state s i).2 hnd2.2 hall2
    rw [hstep] at hrec
    show (deleteStatesFold (delete_a_state s i).2 t).states.length + (t.length + 1)
      = s.states.length
    omega

/-- The reported State count is the size of the State collection. -/
theorem store_count_state (s : Store) : s.count "State" = s.states.length :=
  rfl

/-- C8: GET /stats answers 200 with exactly the six keys amenities,
cities, places, reviews, states, users, each holding the backend count
of the corresponding type; and the counts track mutations: after N
valid State creations followed by M deletions of distinct existing
ids, the reported State count is the initial count plus N minus M. -/
theorem c8_stats_counts (s : Store) (now : String) (items : List (String × AttrMap))
    (ids : List String) :
    (∀ s2 : Store, count s2 = .json 200 (.obj [
        ("amenities", .jint s2.amenities.length),
        ("cities", .jint s2.cities.length),
        ("places", .jint s2.places.length),
        ("reviews", .jint s2.reviews.length),
        ("states", .jint s2.states.length),
        ("users", .jint s2.users.length)]))
    ∧ ((∀ it ∈ items, it.2.isEmpty = false ∧ (dictGet it.2 "name").truthy = true) →
        ids.Nodup →
        (∀ i ∈ ids, (alookup (createStatesFold now s items).states i).isSome) →
        (deleteStatesFold (createStatesFold now s items) ids).count "State" + ids.length
          = s.count "State" + items.length) := by
  constructor
  · intro s2
    rfl
  · intro hitems hnd hall
    have h1 := createStatesFold_length now items s hitems
    have h2 := deleteStatesFold_length ids (createStatesFold now s items) hnd hall
    rw [store_count_state, store_count_state]
    omega

/-- Witness for C8: starting from the concrete store with one state,
creating three states and deleting one of them makes the reported
State count satisfy 3 + 1 = 1 + 3. -/
theorem c8_witness :
    (deleteStatesFold (createStatesFold "t0" wStore
        [("n1", [("name", JVal.jstr "A")]), ("n2", [("name", JVal.jstr "B")]),
          ("n3", [("name", JVal.jstr "C")])]) ["n1"]).count "State" + 1
      = wStore.count "State" + 3 :=
  (c8_stats_counts wStore "t0"
      [("n1", [("name", JVal.jstr "A")]), ("n2", [("name", JVal.jstr "B")]),
        ("n3", [("name", JVal.jstr "C")])] ["n1"]).2
    (by decide) (by decide) (by decide)

/-- A lookup hit determines the dict value. -/
theorem dictGet_of_alookup (d : AttrMap) (k : String) (v : JVal)
    (h : alookup d k = some v) : dictGet d k = v := by
  simp [dictGet, h]

/-- A lookup hit means the payload is non-empty. -/
theorem isEmpty_false_of_alookup (d : AttrMap) (k : String) (v : JVal)
    (h : alookup d k = some v) : d.isEmpty = false := by
  cases d with
  | nil => simp [alookup] at h
  | cons x t => rfl

/-- C9: a required field present in a well-formed payload but bound to
a falsy value (empty string, 0, false, null, empty list or object) is
treated like an absent field: creation fails with 400 and the body
Missing followed by the field, and the store is unchanged; shown for
name on create_state and for user_id and name on create_place. -/
theorem c9_falsy_is_missing (s : Store) (cid : String) (d : AttrMap) (fid now : String) :
    (∀ v, alookup d "name" = some v → v.truthy = false →
        create_state s (some d) fid now = (.json 400 (.err "Missing name"), s))
    ∧ (∀ c v, alookup s.cities cid = some c → alookup d "user_id" = some v →
        v.truthy = false →
        create_place s cid (some d) fid now = (.json 400 (.err "Missing user_id"), s))
    ∧ (∀ c u v, alookup s.cities cid = some c →
        (dictGet d "user_id").truthy = true →
        getUserByJVal s (dictGet d "user_id") = some u →
        alookup d "name" = some v → v.truthy = false →
        create_place s cid (some d) fid now = (.json 400 (.err "Missing name"), s)) := by
  refine ⟨?_, ?_, ?_⟩
  · intro v hv hf
    have hne := isEmpty_false_of_alookup d "name" v hv
    have hdg := dictGet_of_alookup d "name" v hv
    simp [create_state, bodyFalsy, hne, hdg, hf]
  · intro c v hc hv hf
    have hne := isEmpty_false_of_alookup d "user_id" v hv
    have hdg := dictGet_of_alookup d "user_id" v hv
    simp [create_place, hc, bodyFalsy, hne, hdg, hf]
  · intro c u v hc hu hg hv hf
    have hne := isEmpty_false_of_alookup d "name" v hv
    have hdg := dictGet_of_alookup d "name" v hv
    simp [create_place, hc, bodyFalsy, hne, hu, hg, hdg, hf]

/-- Witness for C9: creating a State with payload binding name to the
empty string fails with Missing name and changes nothing. -/
theorem c9_witness :
    create_state wStore (some [("name", JVal.jstr "")]) "nx" "t0"
      = (.json 400 (.err "Missing name"), wStore) :=
  (c9_falsy_is_missing wStore "c1" [("name", JVal.jstr "")] "nx" "t0").1
    (JVal.jstr "") rfl rfl

/-- A response that can only carry a non-404 explicit status renders
to the single 404 handler payload whenever the rendered status is 404. -/
theorem render_404_handler (r : Resp)
    (h : ∀ n b, r = .json n b → ¬n = 404) (h4 : (render r).1 = 404) :
    render r = page_not_found := by
  cases r with
  | abort404 => rfl
  | json n b => exact absurd (by simpa [render] using h4) (h n b rfl)

/-- C10: every modelled operation that answers 404 does so through
abort(404) and hence through the single application-wide handler, so
the rendered body is always the object with error "Not found",
whichever existence check failed. -/
theorem c10_uniform_not_found :
    (∀ s rid, (render (get_a_state s rid).1).1 = 404 →
        render (get_a_state s rid).1 = page_not_found)
    ∧ (∀ s rid, (render (delete_a_state s rid).1).1 = 404 →
        render (delete_a_state s rid).1 = page_not_found)
    ∧ (∀ s rid body now, (render (update_state s rid body now).1).1 = 404 →
        render (update_state s rid body now).1 = page_not_found)
    ∧ (∀ s sid body fid now, (render (create_city s sid body fid now).1).1 = 404 →
        render (create_city s sid body fid now).1 = page_not_found)
    ∧ (∀ s cid body fid now, (render (create_place s cid body fid now).1).1 = 404 →
        render (create_place s cid body fid now).1 = page_not_found)
    ∧ (∀ s pid body now, (render (update_place s pid body now).1).1 = 404 →
        render (update_place s pid body now).1 = page_not_found)
    ∧ (∀ s plid body fid now, (render (create_review s plid body fid now).1).1 = 404 →
        render (create_review s plid body fid now).1 = page_not_found)
    ∧ (∀ s uid body now, (render (update_user s uid body now).1).1 = 404 →
        render (update_user s uid body now).1 = page_not_found)
    ∧ (∀ mode s pid aid, (render (link_place_amenity mode s pid aid).1).1 = 404 →
        render (link_place_amenity mode s pid aid).1 = page_not_found)
    ∧ (∀ mode s pid aid, (render (delete_place_amenity mode s pid aid).1).1 = 404 →
        render (delete_place_amenity mode s pid aid).1 = page_not_found) := by
  refine ⟨?_, ?_, ?_, ?_, ?_, ?_, ?_, ?_, ?_, ?_⟩
  · intro s rid h4
    refine render_404_handler _ ?_ h4
    intro n b h
    unfold get_a_state at h
    repeat' (split at h)
    all_goals simp only [] at h
    repeat' (split at h)
    all_goals simp at h
    all_goals (obtain ⟨hn, -⟩ := h; omega)
  · intro s rid h4
    refine render_404_handler _ ?_ h4
    intro n b h
    unfold delete_a_state at h
    repeat' (split at h)
    all_goals simp only [] at h
    repeat' (split at h)
    all_goals simp at h
    all_goals (obtain ⟨hn, -⟩ := h; omega)
  · intro s rid body now h4
    refine render_404_handler _ ?_ h4
    intro n b h
    unfold update_state at h
    repeat' (split at h)
    all_goals simp only [] at h
    repeat' (split at h)
    all_goals simp at h
    all_goals (obtain ⟨hn, -⟩ := h; omega)
  · intro s sid body fid now h4
    refine render_404_handler _ ?_ h4
    intro n b h
    unfold create_city at h
    repeat' (split at h)
    all_goals simp only [] at h
    repeat' (split at h)
    all_goals simp at h
    all_goals (obtain ⟨hn, -⟩ := h; omega)
  · intro s cid body fid now h4
    refine render_404_handler _ ?_ h4
    intro n b h
    unfold create_place at h
    repeat' (split at h)
    all_goals simp only [] at h
    repeat' (split at h)
    all_goals simp at h
    all_goals (obtain ⟨hn, -⟩ := h; omega)
  · intro s pid body now h4
    refine render_404_handler _ ?_ h4
    intro n b h
    unfold update_place at h
    repeat' (split at h)
    all_goals simp only [] at h
    repeat' (split at h)
    all_goals simp at h
    all_goals (obtain ⟨hn, -⟩ := h; omega)
  · intro s plid body fid now h4
    refine render_404_handler _ ?_ h4
    intro n b h
    unfold create_review at h
    repeat' (split at h)
    all_goals simp only [] at h
    repeat' (split at h)
    all_goals simp at h
    all_goals (obtain ⟨hn, -⟩ := h; omega)
  · intro s uid body now h4
    refine render_404_handler _ ?_ h4
    intro n b h
    unfold update_user at h
    repeat' (split at h)
    all_goals simp only [] at h
    repeat' (split at h)
    all_goals simp at h
    all_goals (obtain ⟨hn, -⟩ := h; omega)
  · intro mode s pid aid h4
    refine render_404_handler _ ?_ h4
    intro n b h
    unfold link_place_amenity at h
    repeat' (split at h)
    all_goals simp only [] at h
    repeat' (split at h)
    all_goals simp at h
    all_goals (obtain ⟨hn, -⟩ := h; omega)
  · intro mode s pid aid h4
    refine render_404_handler _ ?_ h4
    intro n b h
    unfold delete_place_amenity at h
    repeat' (split at h)
    all_goals simp only [] at h
    repeat' (split at h)
    all_goals simp at h
    all_goals (obtain ⟨hn, -⟩ := h; omega)

/-- Witness for C10: fetching a missing state renders the handler
payload with error "Not found". -/
theorem c10_witness :
    render (get_a_state wStore "zz").1 = page_not_found :=
  c10_uniform_not_found.1 wStore "zz" rfl
